import Mathlib

/-!
Verification development for the catwalk gait-analysis core.

The numeric code of the repository (center-of-gravity estimation,
trajectory buffering, outlier filtering, gait metrics and gait
classification) is embedded shallowly:

* machine numbers are modelled by exact rationals (`ℚ`) wherever the
  source only adds, multiplies, divides and compares, and by real
  numbers (`ℝ`) wherever the source takes square roots;
* JS exceptions become an explicit result type;
* the (unboundedly) recursive metrics function is modelled with an
  explicit fuel parameter, `none` meaning that no finite unfolding of
  the recursion produces a result.
-/

/-- One detected skeletal keypoint (src/utils/centerOfGravity.ts,
`PoseLandmark` in types/gait.ts): normalized coordinates plus an
optional visibility score. -/
structure PoseLandmark where
  x : ℚ
  y : ℚ
  z : ℚ
  visibility : Option ℚ
deriving DecidableEq

/-- One center-of-gravity sample (`CenterOfGravity` in types/gait.ts). -/
structure CenterOfGravity where
  x : ℚ
  y : ℚ
  timestamp : ℚ
  confidence : ℚ
deriving DecidableEq

/-- Result of `calculateCenterOfGravity`: either a sample, or one of the
two `throw new Error(...)` paths of the source. -/
inductive CogResult where
  | ok (cog : CenterOfGravity)
  | insufficientData
  | insufficientConfidence
deriving DecidableEq

/-- `BODY_LANDMARKS` paired with `LANDMARK_WEIGHTS`: the eight tracked
anatomical indices of centerOfGravity.ts, each with its anatomical
weight, fetched from the landmark list (out-of-range access yields
`none`, matching JS `undefined`). -/
def bodyLandmarkEntries (landmarks : List PoseLandmark) :
    List (Option PoseLandmark × ℚ) :=
  [(landmarks.get? 11, 0.15), (landmarks.get? 12, 0.15),
   (landmarks.get? 23, 0.45), (landmarks.get? 24, 0.45),
   (landmarks.get? 25, 0.25), (landmarks.get? 26, 0.25),
   (landmarks.get? 27, 0.15), (landmarks.get? 28, 0.15)]

/-- The filter of centerOfGravity.ts line 76: the landmark exists, its
visibility is present, and the visibility exceeds
`CONFIG.CONFIDENCE_THRESHOLD = 0.5`. -/
def validLandmarks (landmarks : List PoseLandmark) :
    List (PoseLandmark × ℚ) :=
  (bodyLandmarkEntries landmarks).filterMap fun entry =>
    match entry.1 with
    | some lm =>
        match lm.visibility with
        | some v => if 0.5 < v then some (lm, entry.2) else none
        | none => none
    | none => none

/-- The mean of the `confidenceBoost` terms (`landmark.visibility || 0`)
over the participating landmarks: `totalConfidence / validLandmarks.length`
in the source. -/
def meanVisibilityBoost (landmarks : List PoseLandmark) : ℚ :=
  ((validLandmarks landmarks).map fun p => p.1.visibility.getD 0).sum /
    (validLandmarks landmarks).length

/-- `calculateCenterOfGravity` (centerOfGravity.ts lines 55-117). -/
def calculateCenterOfGravity (landmarks : List PoseLandmark)
    (timestamp : ℚ) : CogResult :=
  if landmarks.isEmpty then .insufficientData
  else
    let valid := validLandmarks landmarks
    if valid.length < 2 then .insufficientConfidence
    else
      let weightedX := (valid.map fun p =>
        p.1.x * (p.2 * (1 + p.1.visibility.getD 0))).sum
      let weightedY := (valid.map fun p =>
        p.1.y * (p.2 * (1 + p.1.visibility.getD 0))).sum
      let totalWeight := (valid.map fun p =>
        p.2 * (1 + p.1.visibility.getD 0)).sum
      let centerX := max 0 (min 1 (weightedX / totalWeight))
      let centerY := max 0 (min 1 (weightedY / totalWeight))
      let averageConfidence := max 0.5 (meanVisibilityBoost landmarks)
      .ok { x := centerX, y := centerY, timestamp := timestamp,
            confidence := min 1 averageConfidence }

/-- A landmark with all fields zero and no visibility (a point the
tracked-point filter always rejects). -/
def dummyLandmark : PoseLandmark := { x := 0, y := 0, z := 0, visibility := none }

/-- A landmark at (0.4, 0.6) with visibility 0.9 (passes the 0.5
threshold). -/
def goodLandmark : PoseLandmark := { x := 0.4, y := 0.6, z := 0, visibility := some 0.9 }

/-- A 29-entry landmark list in which exactly the two shoulder indices
(11 and 12) carry sufficient visibility. -/
def testLandmarks : List PoseLandmark :=
  [dummyLandmark, dummyLandmark, dummyLandmark, dummyLandmark, dummyLandmark,
   dummyLandmark, dummyLandmark, dummyLandmark, dummyLandmark, dummyLandmark,
   dummyLandmark, goodLandmark, goodLandmark, dummyLandmark, dummyLandmark,
   dummyLandmark, dummyLandmark, dummyLandmark, dummyLandmark, dummyLandmark,
   dummyLandmark, dummyLandmark, dummyLandmark, dummyLandmark, dummyLandmark,
   dummyLandmark, dummyLandmark, dummyLandmark, dummyLandmark]

example : calculateCenterOfGravity [] 5 = .insufficientData := rfl

example :
    calculateCenterOfGravity testLandmarks 5 =
      .ok { x := 0.4, y := 0.6, timestamp := 5, confidence := 0.9 } := by
  norm_num [calculateCenterOfGravity, validLandmarks, bodyLandmarkEntries, testLandmarks,
    meanVisibilityBoost, dummyLandmark, goodLandmark, List.filterMap_cons,
    CenterOfGravity.mk.injEq]

/-- Quartile index used by `filterOutliers`: `Math.floor(length * q)`. -/
def quartileIndex (n : ℕ) (q : ℚ) : ℕ := (⌊(n : ℚ) * q⌋).toNat

/-- `filterOutliers` (centerOfGravity.ts lines 160-189): Tukey fencing
with factor 1.5 on each axis independently; a no-op below 3 samples.
The JS numeric ascending sort is modelled by `List.insertionSort`. -/
def filterOutliers (cogHistory : List CenterOfGravity) : List CenterOfGravity :=
  if cogHistory.length < 3 then cogHistory
  else
    let xValues := cogHistory.map (·.x)
    let yValues := cogHistory.map (·.y)
    let sortedX := xValues.insertionSort (· ≤ ·)
    let sortedY := yValues.insertionSort (· ≤ ·)
    let q1X := sortedX.getD (quartileIndex sortedX.length 0.25) 0
    let q3X := sortedX.getD (quartileIndex sortedX.length 0.75) 0
    let iqrX := q3X - q1X
    let q1Y := sortedY.getD (quartileIndex sortedY.length 0.25) 0
    let q3Y := sortedY.getD (quartileIndex sortedY.length 0.75) 0
    let iqrY := q3Y - q1Y
    cogHistory.filter fun cog =>
      let isXOutlier := cog.x < q1X - iqrX * 1.5 ∨ q3X + iqrX * 1.5 < cog.x
      let isYOutlier := cog.y < q1Y - iqrY * 1.5 ∨ q3Y + iqrY * 1.5 < cog.y
      ¬isXOutlier ∧ ¬isYOutlier

/-- `calculateStability` (centerOfGravity.ts lines 122-155): standard
deviation based stability in `[0, 100]`; square roots are taken in `ℝ`,
all other arithmetic is the source's rational arithmetic. -/
noncomputable def calculateStability (cogHistory : List CenterOfGravity) : ℝ :=
  if cogHistory.length < 2 then 0
  else
    let validCogHistory := cogHistory.filter fun cog => 0.6 < cog.confidence
    if validCogHistory.length < 2 then 0
    else
      let xValues := validCogHistory.map (·.x)
      let yValues := validCogHistory.map (·.y)
      let xMean := xValues.sum / xValues.length
      let yMean := yValues.sum / yValues.length
      let xVariance : ℚ := (xValues.map fun x => (x - xMean) ^ 2).sum / xValues.length
      let yVariance : ℚ := (yValues.map fun y => (y - yMean) ^ 2).sum / yValues.length
      let xStdDev := Real.sqrt (xVariance : ℚ)
      let yStdDev := Real.sqrt (yVariance : ℚ)
      let totalStdDev := Real.sqrt (xStdDev * xStdDev + yStdDev * yStdDev)
      let stabilityScore := max 0 (100 - totalStdDev * 100)
      min 100 stabilityScore

/-- The coarse pattern label of `analyzeGaitPattern`. -/
inductive GaitPattern where
  | stable
  | unstable
  | unknown
deriving DecidableEq

/-- Result of `analyzeGaitPattern` (`GaitAnalysis` in types/gait.ts). -/
structure GaitAnalysis where
  cogHistory : List CenterOfGravity
  stability : ℝ
  pattern : GaitPattern

/-- `analyzeGaitPattern` (centerOfGravity.ts lines 194-224). -/
noncomputable def analyzeGaitPattern (cogHistory : List CenterOfGravity) : GaitAnalysis :=
  if cogHistory.length < 2 then
    { cogHistory := cogHistory, stability := 0, pattern := .unknown }
  else
    let filteredHistory := filterOutliers cogHistory
    let stability := calculateStability filteredHistory
    let pattern : GaitPattern :=
      if 70 ≤ stability then .stable
      else if stability ≤ 60 then .unstable
      else .unknown
    { cogHistory := filteredHistory, stability := stability, pattern := pattern }

/-- Cached visualization payload of the tracker (points, SVG path string
and bounds); its contents are never inspected by the claims, only its
presence or invalidation. -/
structure VisualizationData where
  points : List (ℚ × ℚ × ℚ)
  path : String
  bounds : ℚ × ℚ × ℚ × ℚ
deriving DecidableEq

/-- Mutable state of a `TrajectoryTracker` instance
(trajectoryTracker.ts lines 15-18 and 75-81). -/
structure TrackerState where
  cogHistory : List CenterOfGravity
  lastUpdateTime : ℚ
  cachedVisualizationData : Option VisualizationData
  lastVisualizationUpdate : ℚ
deriving DecidableEq

/-- The state of a freshly constructed `TrajectoryTracker`. -/
def initialTrackerState : TrackerState :=
  { cogHistory := [], lastUpdateTime := 0,
    cachedVisualizationData := none, lastVisualizationUpdate := 0 }

/-- `CONFIG.MAX_HISTORY_SIZE` (trajectoryTracker.ts line 6). -/
def maxHistorySize : ℕ := 40

/-- `CONFIG.MIN_ANALYSIS_POINTS` (trajectoryTracker.ts line 7). -/
def minAnalysisPoints : ℕ := 6

/-- `CONFIG.UPDATE_INTERVAL` in milliseconds (trajectoryTracker.ts line 8). -/
def updateInterval : ℚ := 120

/-- `CONFIG.BATCH_CLEANUP_SIZE` (trajectoryTracker.ts line 9). -/
def batchCleanupSize : ℕ := 8

/-- `TrajectoryTracker.addCenterOfGravity` (trajectoryTracker.ts lines
22-38): throttle check, append, timestamp update, cache invalidation,
then batch eviction of the oldest `BATCH_CLEANUP_SIZE` samples
(`splice(0, 8)`) once the length exceeds
`MAX_HISTORY_SIZE + BATCH_CLEANUP_SIZE`. -/
def addCenterOfGravity (s : TrackerState) (cog : CenterOfGravity) : TrackerState :=
  if cog.timestamp - s.lastUpdateTime < updateInterval then s
  else
    let pushed := s.cogHistory ++ [cog]
    let newHistory :=
      if maxHistorySize + batchCleanupSize < pushed.length then
        pushed.drop batchCleanupSize
      else pushed
    { s with cogHistory := newHistory, lastUpdateTime := cog.timestamp,
             cachedVisualizationData := none }

/-- `TrajectoryTracker.clearHistory` (trajectoryTracker.ts lines 58-62). -/
def clearHistory (s : TrackerState) : TrackerState :=
  { s with cogHistory := [], lastUpdateTime := 0,
           cachedVisualizationData := none }

/-- `TrajectoryTracker.analyzeCurrentGait` (trajectoryTracker.ts lines
67-73): `null` below `MIN_ANALYSIS_POINTS` buffered samples, otherwise
the gait-pattern analysis of the full buffer. -/
noncomputable def analyzeCurrentGait (s : TrackerState) : Option GaitAnalysis :=
  if s.cogHistory.length < minAnalysisPoints then none
  else some (analyzeGaitPattern s.cogHistory)

/-- JS `Math.round(x * 1000) / 1000` (3-decimal rounding, half away
from zero for positives — `Math.round` rounds half toward `+∞`). -/
noncomputable def jsRound3 (x : ℝ) : ℝ := (⌊x * 1000 + 1 / 2⌋ : ℤ) / 1000

/-- JS `Math.round(x * 10) / 10` (1-decimal rounding). -/
noncomputable def jsRound1 (x : ℝ) : ℝ := (⌊x * 10 + 1 / 2⌋ : ℤ) / 10

/-- JS `Math.round(x)`. -/
noncomputable def jsRound0 (x : ℝ) : ℝ := (⌊x + 1 / 2⌋ : ℤ)

/-- The confidence pre-filter of `calculateAdvancedGaitMetrics`
(gaitAnalysis.ts line 44): keep samples with `confidence > 0.6`. -/
def metricsFilter (cogHistory : List CenterOfGravity) : List CenterOfGravity :=
  cogHistory.filter fun cog => 0.6 < cog.confidence

/-- Mean of the x coordinates (`xMean = xSum / n`, gaitAnalysis.ts
line 62). -/
def cogXMean (l : List CenterOfGravity) : ℚ := (l.map (·.x)).sum / l.length

/-- Mean of the y coordinates (`yMean = ySum / n`). -/
def cogYMean (l : List CenterOfGravity) : ℚ := (l.map (·.y)).sum / l.length

/-- `xVarianceSum + yVarianceSum` (gaitAnalysis.ts lines 66-72): sum of
squared deviations from the mean over both axes. -/
def cogVarianceSum (l : List CenterOfGravity) : ℚ :=
  (l.map fun cog => (cog.x - cogXMean l) ^ 2).sum +
    (l.map fun cog => (cog.y - cogYMean l) ^ 2).sum

/-- `standardDeviation = Math.sqrt((xVarianceSum + yVarianceSum) / n)`
(gaitAnalysis.ts line 74), before rounding. -/
noncomputable def metricsStandardDeviation (l : List CenterOfGravity) : ℝ :=
  Real.sqrt ((cogVarianceSum l / l.length : ℚ))

/-- `overallMean = Math.sqrt(xMean * xMean + yMean * yMean)`
(gaitAnalysis.ts line 77). -/
noncomputable def metricsOverallMean (l : List CenterOfGravity) : ℝ :=
  Real.sqrt ((cogXMean l * cogXMean l + cogYMean l * cogYMean l : ℚ))

/-- `calculateLinearityIndexOptimized` (gaitAnalysis.ts lines 97-133):
least-squares R² of y on x, clamped to `[0, 1]`; entirely rational. -/
def linearityIndexOptimized (l : List CenterOfGravity) : ℚ :=
  let xValues := l.map (·.x)
  let yValues := l.map (·.y)
  let n := l.length
  if n < 3 then 0
  else
    let xMean := cogXMean l
    let yMean := cogYMean l
    let sumXY := ((xValues.zip yValues).map fun p =>
      (p.1 - xMean) * (p.2 - yMean)).sum
    let sumXX := (xValues.map fun x => (x - xMean) ^ 2).sum
    if sumXX < 1e-10 then 0
    else
      let slope := sumXY / sumXX
      let intercept := yMean - slope * xMean
      let residualSumSquares := ((xValues.zip yValues).map fun p =>
        (p.2 - (slope * p.1 + intercept)) ^ 2).sum
      let totalSumSquares := (yValues.map fun y => (y - yMean) ^ 2).sum
      let rSquared := if (1e-10 : ℚ) < totalSumSquares
        then 1 - residualSumSquares / totalSumSquares else 0
      max 0 (min 1 rSquared)

/-- `calculateVelocityVariationOptimized` (gaitAnalysis.ts lines
139-174): coefficient of variation of consecutive-step speeds; steps
with `dt ≤ 0` are skipped. -/
noncomputable def velocityVariationOptimized (cogHistory : List CenterOfGravity) : ℝ :=
  if cogHistory.length < 3 then 0
  else
    let velocities : List ℝ :=
      (cogHistory.zip cogHistory.tail).filterMap fun p =>
        let dt : ℚ := (p.2.timestamp - p.1.timestamp) / 1000
        if 0 < dt then
          some (Real.sqrt (((p.2.x - p.1.x) ^ 2 + (p.2.y - p.1.y) ^ 2 : ℚ)) / (dt : ℝ))
        else none
    if velocities.length < 2 then 0
    else
      let velocityMean := velocities.sum / velocities.length
      let varianceSum := (velocities.map fun v => (v - velocityMean) ^ 2).sum
      let velocityStdDev := Real.sqrt (varianceSum / velocities.length)
      if 1e-10 < velocityMean then velocityStdDev / velocityMean else 0

/-- `AdvancedGaitMetrics` (gaitAnalysis.ts lines 23-28). -/
structure AdvancedGaitMetrics where
  standardDeviation : ℝ
  coefficientOfVariation : ℝ
  linearityIndex : ℝ
  velocityVariation : ℝ

/-- The successful branch of `calculateAdvancedGaitMetrics`
(gaitAnalysis.ts lines 49-91), applied to the (already filtered)
history: the four metrics, each rounded to 3 decimals. -/
noncomputable def advancedMetricsBody (l : List CenterOfGravity) : AdvancedGaitMetrics :=
  { standardDeviation := jsRound3 (metricsStandardDeviation l)
    coefficientOfVariation := jsRound3
      (if 1e-10 < metricsOverallMean l
       then metricsStandardDeviation l / metricsOverallMean l else 0)
    linearityIndex := jsRound3 ((linearityIndexOptimized l : ℚ))
    velocityVariation := jsRound3 (velocityVariationOptimized l) }

/-- `calculateAdvancedGaitMetrics` (gaitAnalysis.ts lines 33-92) with an
explicit fuel parameter: the source recurses (gaitAnalysis.ts line 46,
`return calculateAdvancedGaitMetrics(cogHistory)`) on its *unchanged*
argument whenever the confidence filter leaves fewer than 3 samples, so
the recursion is modelled by fuel; `none` means that no finite number of
unfoldings produces a result (the JS function overflows the stack). -/
noncomputable def calculateAdvancedGaitMetricsF :
    ℕ → List CenterOfGravity → Option AdvancedGaitMetrics
  | 0, _ => none
  | fuel + 1, cogHistory =>
    if cogHistory.length < 3 then
      some { standardDeviation := 0, coefficientOfVariation := 0,
             linearityIndex := 0, velocityVariation := 0 }
    else
      let filteredHistory := metricsFilter cogHistory
      if filteredHistory.length < 3 then
        calculateAdvancedGaitMetricsF fuel cogHistory
      else
        some (advancedMetricsBody filteredHistory)

/-- `TemporalConsistency` (gaitAnalysis.ts lines 4-8). -/
structure TemporalConsistency where
  averageInterval : ℝ
  intervalVariation : ℝ
  isConsistent : Bool

/-- `analyzeTemporalConsistency` (gaitAnalysis.ts lines 315-350):
statistics of the consecutive timestamp gaps. -/
noncomputable def analyzeTemporalConsistency (cogHistory : List CenterOfGravity) :
    TemporalConsistency :=
  if cogHistory.length < 2 then
    { averageInterval := 0, intervalVariation := 0, isConsistent := false }
  else
    let intervals : List ℚ :=
      (cogHistory.zip cogHistory.tail).map fun p => p.2.timestamp - p.1.timestamp
    let averageInterval : ℚ := intervals.sum / intervals.length
    let varianceSum : ℚ := (intervals.map fun i => (i - averageInterval) ^ 2).sum
    let intervalVariance : ℚ := varianceSum / intervals.length
    let intervalVariation : ℝ := Real.sqrt (intervalVariance : ℚ) / (averageInterval : ℝ)
    { averageInterval := jsRound0 ((averageInterval : ℝ))
      intervalVariation := jsRound3 intervalVariation
      isConsistent := decide (intervalVariation ≤ 0.5) && decide ((0 : ℚ) < averageInterval) }

/-- `calculateDataQuality` (gaitAnalysis.ts lines 381-393): weighted
blend of mean confidence and high-confidence ratio. -/
def calculateDataQuality (cogHistory : List CenterOfGravity) : ℚ :=
  if cogHistory.length = 0 then 0
  else
    let averageConfidence : ℚ := (cogHistory.map (·.confidence)).sum / cogHistory.length
    let highConfidenceCount : ℚ :=
      (cogHistory.filter fun cog => 0.8 < cog.confidence).length
    averageConfidence * 0.6 + highConfidenceCount / cogHistory.length * 0.4

/-- `calculateAdaptiveStabilityScore` (gaitAnalysis.ts lines 240-246). -/
noncomputable def calculateAdaptiveStabilityScore (standardDeviation : ℝ)
    (sampleSize : ℕ) : ℝ :=
  let baseThreshold : ℝ := if 10 < sampleSize then 150 else 100
  let adjustedThreshold := baseThreshold * max 0.8 (min 1.2 ((sampleSize : ℝ) / 10))
  max 0 (min 100 (100 - standardDeviation * adjustedThreshold))

/-- `calculateAdaptiveRegularityScore` (gaitAnalysis.ts lines 251-257). -/
noncomputable def calculateAdaptiveRegularityScore (velocityVariation : ℝ)
    (temporalAnalysis : TemporalConsistency) : ℝ :=
  let baseScore := max 0 (100 - velocityVariation * 100)
  let temporalBonus : ℝ := if temporalAnalysis.isConsistent then 1.1 else 0.9
  min 100 (baseScore * temporalBonus)

/-- The classifier's output label (`catwalk` vs `drunk` vs `unknown`). -/
inductive ClassPattern where
  | catwalk
  | drunk
  | unknown
deriving DecidableEq

/-- `classifyPatternWithAdaptiveThresholds` (gaitAnalysis.ts lines
262-291). -/
noncomputable def classifyPatternWithAdaptiveThresholds (score : ℝ)
    (sampleSize : ℕ) (dataQuality : ℚ) : ClassPattern × ℝ :=
  let qualityFactor : ℝ := max 0.75 (min 1 ((dataQuality : ℝ)))
  let sizeFactor : ℝ := min 1 ((sampleSize : ℝ) / 8)
  let catwalkThreshold := 78 * qualityFactor * sizeFactor
  let drunkThreshold := 32 * qualityFactor * sizeFactor
  if catwalkThreshold ≤ score then (.catwalk, min 0.92 (score / 100))
  else if score ≤ drunkThreshold then (.drunk, min 0.92 ((100 - score) / 100))
  else (.unknown, min 0.7 (|score - 50| / 50 * 0.6))

/-- `calculateFinalConfidence` (gaitAnalysis.ts lines 296-310). -/
noncomputable def calculateFinalConfidence (baseConfidence : ℝ) (dataQuality : ℚ)
    (isTemporallyConsistent : Bool) (sampleSize : ℕ) : ℝ :=
  let qualityBonus : ℝ :=
    if (0.8 : ℚ) < dataQuality then 1.1 else if dataQuality < 0.6 then 0.8 else 1
  let temporalBonus : ℝ := if isTemporallyConsistent then 1.05 else 0.9
  let sizeBonus : ℝ := if 10 ≤ sampleSize then 1 else if 5 ≤ sampleSize then 0.9 else 0.7
  max 0 (min 0.98 (baseConfidence * qualityBonus * temporalBonus * sizeBonus))

/-- Score triple of `GaitClassification` (types/gait.ts). -/
structure GaitScores where
  stabilityScore : ℝ
  regularityScore : ℝ
  linearityScore : ℝ

/-- `GaitClassification` (types/gait.ts). -/
structure GaitClassification where
  pattern : ClassPattern
  confidence : ℝ
  metrics : GaitScores

/-- `classifyGaitPattern` (gaitAnalysis.ts lines 180-235) with the same
fuel discipline as the metrics engine it calls: below 5 samples it
returns the all-zero `unknown` sentinel without touching the metrics
engine at all. -/
noncomputable def classifyGaitPatternF (fuel : ℕ)
    (cogHistory : List CenterOfGravity) : Option GaitClassification :=
  if cogHistory.length < 5 then
    some { pattern := .unknown, confidence := 0,
           metrics := { stabilityScore := 0, regularityScore := 0, linearityScore := 0 } }
  else
    match calculateAdvancedGaitMetricsF fuel cogHistory with
    | none => none
    | some metrics =>
      let temporalAnalysis := analyzeTemporalConsistency cogHistory
      let dataQuality := calculateDataQuality cogHistory
      let stabilityScore :=
        calculateAdaptiveStabilityScore metrics.standardDeviation cogHistory.length
      let regularityScore :=
        calculateAdaptiveRegularityScore metrics.velocityVariation temporalAnalysis
      let linearityScore := metrics.linearityIndex * 100
      let qualityWeight := max 0.5 ((calculateDataQuality cogHistory : ℝ))
      let temporalWeight : ℝ := if temporalAnalysis.isConsistent then 1 else 0.7
      let baseScore := stabilityScore * 0.3 + regularityScore * 0.2 + linearityScore * 0.5
      let adjustedScore := baseScore * qualityWeight * temporalWeight
      let classified :=
        classifyPatternWithAdaptiveThresholds adjustedScore cogHistory.length dataQuality
      let finalConfidence := calculateFinalConfidence classified.2 dataQuality
        temporalAnalysis.isConsistent cogHistory.length
      some { pattern := classified.1
             confidence := jsRound3 finalConfidence
             metrics := { stabilityScore := jsRound1 stabilityScore
                          regularityScore := jsRound1 regularityScore
                          linearityScore := jsRound1 linearityScore } }

/-- The CoG record produced by `calculateCenterOfGravity testLandmarks 5`. -/
def cogWitness : CenterOfGravity := { x := 0.4, y := 0.6, timestamp := 5, confidence := 0.9 }

/-- Claim C9: for every input list with fewer than 5 samples,
`classifyGaitPattern` returns the `unknown` sentinel with confidence 0
and all-zero scores, without raising any error (and without touching the
possibly divergent metrics engine). -/
theorem classifyGaitPattern_small_input_spec (fuel : ℕ)
    (cogHistory : List CenterOfGravity) (h : cogHistory.length < 5) :
    classifyGaitPatternF fuel cogHistory =
      some { pattern := .unknown, confidence := 0,
             metrics := { stabilityScore := 0, regularityScore := 0,
                          linearityScore := 0 } } := by
  unfold classifyGaitPatternF
  rw [if_pos h]

/-- Witness for C9: the empty history is classified as the zero
`unknown` sentinel. -/
theorem classifyGaitPattern_small_input_spec_witness :
    classifyGaitPatternF 0 [] =
      some { pattern := .unknown, confidence := 0,
             metrics := { stabilityScore := 0, regularityScore := 0,
                          linearityScore := 0 } } :=
  classifyGaitPattern_small_input_spec 0 [] (by decide)

/-- Claim C10: with `lastUpdateTime = 0` (fresh construction or just
after `clearHistory`), `addCenterOfGravity` silently drops any sample
whose timestamp is below `UPDATE_INTERVAL = 120`, even into an empty
buffer. -/
theorem addCenterOfGravity_initial_throttle_spec :
    initialTrackerState.lastUpdateTime = 0 ∧
    (∀ s : TrackerState, (clearHistory s).lastUpdateTime = 0) ∧
    (∀ (s : TrackerState) (cog : CenterOfGravity), s.lastUpdateTime = 0 →
      cog.timestamp < updateInterval → addCenterOfGravity s cog = s) := by
  refine ⟨rfl, fun s => rfl, fun s cog h0 hlt => ?_⟩
  unfold addCenterOfGravity
  rw [h0, sub_zero, if_pos hlt]

/-- Witness for C10: a fresh tracker rejects a first sample stamped
100 ms. -/
theorem addCenterOfGravity_initial_throttle_spec_witness :
    addCenterOfGravity initialTrackerState
      { x := 0.5, y := 0.5, timestamp := 100, confidence := 0.9 } =
      initialTrackerState :=
  addCenterOfGravity_initial_throttle_spec.2.2 initialTrackerState
    { x := 0.5, y := 0.5, timestamp := 100, confidence := 0.9 }
    rfl (by norm_num [updateInterval])

/-- Claim C4: `calculateCenterOfGravity` fails with `InsufficientData`
exactly on the empty landmark list, fails with `InsufficientConfidence`
exactly when the list is non-empty but fewer than 2 of the 8 tracked
anatomical points pass the 0.5 visibility threshold, and succeeds
exactly when at least 2 such points pass. -/
theorem calculateCenterOfGravity_error_spec (landmarks : List PoseLandmark)
    (timestamp : ℚ) :
    (calculateCenterOfGravity landmarks timestamp = .insufficientData ↔
      landmarks = []) ∧
    (calculateCenterOfGravity landmarks timestamp = .insufficientConfidence ↔
      landmarks ≠ [] ∧ (validLandmarks landmarks).length < 2) ∧
    ((∃ cog, calculateCenterOfGravity landmarks timestamp = .ok cog) ↔
      2 ≤ (validLandmarks landmarks).length) := by
  by_cases he : landmarks = []
  · subst he
    refine ⟨by simp [calculateCenterOfGravity], ?_, ?_⟩
    · simp [calculateCenterOfGravity]
    · constructor
      · rintro ⟨cog, hcog⟩
        simp [calculateCenterOfGravity] at hcog
      · intro h2
        simp [validLandmarks, bodyLandmarkEntries] at h2
  · have hne : ¬ landmarks.isEmpty := by
      simpa [List.isEmpty_iff] using he
    by_cases hlen : (validLandmarks landmarks).length < 2
    · refine ⟨?_, ?_, ?_⟩
      · simp [calculateCenterOfGravity, hne, hlen, he]
      · simp [calculateCenterOfGravity, hne, hlen, he]
      · constructor
        · rintro ⟨cog, hcog⟩
          simp [calculateCenterOfGravity, hne, hlen] at hcog
        · intro h2
          omega
    · refine ⟨?_, ?_, ?_⟩
      · simp [calculateCenterOfGravity, hne, hlen, he]
      · simp [calculateCenterOfGravity, hne, hlen, he]
      · constructor
        · intro _
          omega
        · intro _
          cases hres : calculateCenterOfGravity landmarks timestamp with
          | ok cog => exact ⟨cog, rfl⟩
          | insufficientData => simp [calculateCenterOfGravity, hne, hlen] at hres
          | insufficientConfidence => simp [calculateCenterOfGravity, hne, hlen] at hres

/-- Witness for C4: the empty landmark list yields `InsufficientData`. -/
theorem calculateCenterOfGravity_error_spec_witness :
    calculateCenterOfGravity [] 5 = .insufficientData :=
  (calculateCenterOfGravity_error_spec [] 5).1.mpr rfl

/-- The CoG returned when `calculateCenterOfGravity` is handed
timestamp 0: its timestamp is 0, not positive. -/
def timestampCex : CenterOfGravity := { x := 0.4, y := 0.6, timestamp := 0, confidence := 0.9 }

/-- Counterexample to claim C3 as stated: with timestamp argument 0 the
estimator succeeds yet returns a CoG whose timestamp is not positive
(the function never validates the timestamp argument). -/
theorem cog_timestamp_claim_false :
    calculateCenterOfGravity testLandmarks 0 = .ok timestampCex ∧
    ¬ 0 < timestampCex.timestamp := by
  constructor
  · norm_num [calculateCenterOfGravity, validLandmarks, bodyLandmarkEntries, testLandmarks,
      meanVisibilityBoost, dummyLandmark, goodLandmark, List.filterMap_cons,
      CenterOfGravity.mk.injEq, timestampCex]
  · norm_num [timestampCex]

/-- Claim C3 (amended): every successful `calculateCenterOfGravity`
result satisfies `0 ≤ x ≤ 1`, `0 ≤ y ≤ 1`, `0 ≤ confidence ≤ 1`, and its
timestamp equals the timestamp argument — hence it is positive exactly
when the caller passes a positive timestamp. -/
theorem calculateCenterOfGravity_range_spec (landmarks : List PoseLandmark)
    (timestamp : ℚ) (cog : CenterOfGravity)
    (h : calculateCenterOfGravity landmarks timestamp = .ok cog) :
    0 ≤ cog.x ∧ cog.x ≤ 1 ∧ 0 ≤ cog.y ∧ cog.y ≤ 1 ∧
    0 ≤ cog.confidence ∧ cog.confidence ≤ 1 ∧
    cog.timestamp = timestamp ∧ (0 < timestamp → 0 < cog.timestamp) := by
  simp only [calculateCenterOfGravity] at h
  split at h
  · exact absurd h (by simp)
  · split at h
    · exact absurd h (by simp)
    · injection h with h
      subst h
      refine ⟨le_max_left 0 _, ?_, le_max_left 0 _, ?_, ?_,
        min_le_left 1 _, rfl, fun ht => ht⟩
      · exact max_le (by norm_num) (min_le_left 1 _)
      · exact max_le (by norm_num) (min_le_left 1 _)
      · exact le_min (by norm_num) (le_trans (by norm_num) (le_max_left 0.5 _))

/-- Witness for C3 (amended) at a concrete successful call. -/
theorem calculateCenterOfGravity_range_spec_witness :
    0 ≤ cogWitness.x ∧ cogWitness.x ≤ 1 ∧ 0 ≤ cogWitness.y ∧ cogWitness.y ≤ 1 ∧
    0 ≤ cogWitness.confidence ∧ cogWitness.confidence ≤ 1 ∧
    cogWitness.timestamp = 5 ∧ (0 < (5 : ℚ) → 0 < cogWitness.timestamp) :=
  calculateCenterOfGravity_range_spec testLandmarks 5 cogWitness (by
    norm_num [calculateCenterOfGravity, validLandmarks, bodyLandmarkEntries, testLandmarks,
      meanVisibilityBoost, dummyLandmark, goodLandmark, List.filterMap_cons,
      CenterOfGravity.mk.injEq, cogWitness])

/-- Claim C5: every successful `calculateCenterOfGravity` result's
confidence is the mean visibility-boost term over the participating
points, floored at 0.5 and capped at 1.0, so it always lies in
`[0.5, 1]`. -/
theorem calculateCenterOfGravity_confidence_spec (landmarks : List PoseLandmark)
    (timestamp : ℚ) (cog : CenterOfGravity)
    (h : calculateCenterOfGravity landmarks timestamp = .ok cog) :
    cog.confidence = min 1 (max 0.5 (meanVisibilityBoost landmarks)) ∧
    0.5 ≤ cog.confidence ∧ cog.confidence ≤ 1 := by
  simp only [calculateCenterOfGravity] at h
  split at h
  · exact absurd h (by simp)
  · split at h
    · exact absurd h (by simp)
    · injection h with h
      subst h
      exact ⟨rfl, le_min (by norm_num) (le_max_left 0.5 _), min_le_left 1 _⟩

/-- Witness for C5 at a concrete successful call (confidence 0.9). -/
theorem calculateCenterOfGravity_confidence_spec_witness :
    cogWitness.confidence = min 1 (max 0.5 (meanVisibilityBoost testLandmarks)) ∧
    0.5 ≤ cogWitness.confidence ∧ cogWitness.confidence ≤ 1 :=
  calculateCenterOfGravity_confidence_spec testLandmarks 5 cogWitness (by
    norm_num [calculateCenterOfGravity, validLandmarks, bodyLandmarkEntries, testLandmarks,
      meanVisibilityBoost, dummyLandmark, goodLandmark, List.filterMap_cons,
      CenterOfGravity.mk.injEq, cogWitness])

/-- Helper: one `addCenterOfGravity` call grows the buffer by at most
one sample (append of one element, possibly followed by an 8-element
batch eviction). -/
theorem addCenterOfGravity_length_le (s : TrackerState) (cog : CenterOfGravity) :
    (addCenterOfGravity s cog).cogHistory.length ≤ s.cogHistory.length + 1 := by
  unfold addCenterOfGravity
  split
  · omega
  · simp only
    split
    · simp only [List.length_drop, List.length_append, List.length_cons, List.length_nil,
        maxHistorySize, batchCleanupSize]
      omega
    · simp

/-- Helper: an accepted insert records the sample timestamp as the new
`lastUpdateTime`. -/
theorem addCenterOfGravity_accepted_lastUpdateTime (s : TrackerState)
    (cog : CenterOfGravity)
    (h : ¬ cog.timestamp - s.lastUpdateTime < updateInterval) :
    (addCenterOfGravity s cog).lastUpdateTime = cog.timestamp := by
  unfold addCenterOfGravity
  rw [if_neg h]

/-- Sample stamped 119 ms: rejected by a fresh tracker (119 − 0 < 120). -/
def cogAt119 : CenterOfGravity := { x := 0.5, y := 0.5, timestamp := 119, confidence := 0.9 }

/-- Sample stamped 125 ms: accepted by a fresh tracker (125 − 0 ≥ 120). -/
def cogAt125 : CenterOfGravity := { x := 0.5, y := 0.5, timestamp := 125, confidence := 0.9 }

/-- Counterexample to the "only the first is kept" part of claim C6: two
calls 6 ms apart on a fresh tracker keep the *second* sample — the first
is itself throttled against the initial `lastUpdateTime = 0`, after
which the second clears the threshold. -/
theorem addCenterOfGravity_first_kept_claim_false :
    cogAt125.timestamp - cogAt119.timestamp < updateInterval ∧
    (addCenterOfGravity (addCenterOfGravity initialTrackerState cogAt119)
        cogAt125).cogHistory = [cogAt125] ∧
    cogAt119 ≠ cogAt125 := by
  refine ⟨by norm_num [cogAt119, cogAt125, updateInterval], ?_,
    by simp [cogAt119, cogAt125, CenterOfGravity.mk.injEq]⟩
  norm_num [addCenterOfGravity, initialTrackerState, cogAt119, cogAt125,
    updateInterval, maxHistorySize, batchCleanupSize]

/-- Claim C6 (amended): a call inside the throttle window is a complete
no-op on the tracker state (buffer, `lastUpdateTime` and visualization
cache all unchanged), and for two calls with timestamps closer than the
interval the buffer grows by at most one sample — the first of the two
being the one kept whenever the first itself passes the throttle. -/
theorem addCenterOfGravity_throttle_spec :
    (∀ (s : TrackerState) (cog : CenterOfGravity),
      cog.timestamp - s.lastUpdateTime < updateInterval →
      addCenterOfGravity s cog = s) ∧
    (∀ (s : TrackerState) (c1 c2 : CenterOfGravity),
      c2.timestamp - c1.timestamp < updateInterval →
      (addCenterOfGravity (addCenterOfGravity s c1) c2).cogHistory.length ≤
        s.cogHistory.length + 1 ∧
      (¬ c1.timestamp - s.lastUpdateTime < updateInterval →
        addCenterOfGravity (addCenterOfGravity s c1) c2 =
          addCenterOfGravity s c1)) := by
  have hthrottle : ∀ (s : TrackerState) (cog : CenterOfGravity),
      cog.timestamp - s.lastUpdateTime < updateInterval →
      addCenterOfGravity s cog = s := by
    intro s cog h
    unfold addCenterOfGravity
    rw [if_pos h]
  refine ⟨hthrottle, fun s c1 c2 hclose => ?_⟩
  have hsecond : ¬ c1.timestamp - s.lastUpdateTime < updateInterval →
      addCenterOfGravity (addCenterOfGravity s c1) c2 = addCenterOfGravity s c1 := by
    intro hacc
    apply hthrottle
    rw [addCenterOfGravity_accepted_lastUpdateTime s c1 hacc]
    exact hclose
  constructor
  · by_cases hacc : c1.timestamp - s.lastUpdateTime < updateInterval
    · rw [hthrottle s c1 hacc]
      exact addCenterOfGravity_length_le s c2
    · rw [hsecond hacc]
      exact addCenterOfGravity_length_le s c1
  · exact hsecond

/-- A tracker whose last accepted sample is stamped 1000 ms. -/
def busyTrackerState : TrackerState :=
  { cogHistory := [cogAt125], lastUpdateTime := 1000,
    cachedVisualizationData := none, lastVisualizationUpdate := 0 }

/-- Sample stamped 1050 ms (inside the 120 ms window after 1000 ms). -/
def cogAt1050 : CenterOfGravity := { x := 0.5, y := 0.5, timestamp := 1050, confidence := 0.9 }

/-- Witness for C6 (amended): a sample 50 ms after the last accepted one
leaves the tracker state untouched. -/
theorem addCenterOfGravity_throttle_spec_witness :
    addCenterOfGravity busyTrackerState cogAt1050 = busyTrackerState :=
  addCenterOfGravity_throttle_spec.1 busyTrackerState cogAt1050
    (by norm_num [busyTrackerState, cogAt1050, updateInterval])

/-- Helper: the buffer length bound
`MAX_HISTORY_SIZE + BATCH_CLEANUP_SIZE` is preserved by every insert. -/
theorem addCenterOfGravity_length_bound (s : TrackerState) (cog : CenterOfGravity)
    (h : s.cogHistory.length ≤ maxHistorySize + batchCleanupSize) :
    (addCenterOfGravity s cog).cogHistory.length ≤
      maxHistorySize + batchCleanupSize := by
  unfold addCenterOfGravity
  split
  · exact h
  · simp only
    split
    · rename_i hover
      simp only [List.length_drop, List.length_append, List.length_cons,
        List.length_nil, maxHistorySize, batchCleanupSize] at *
      omega
    · rename_i hover
      simp only [List.length_append, List.length_cons, List.length_nil,
        maxHistorySize, batchCleanupSize] at *
      omega

/-- Helper: the length bound holds after any fold of inserts. -/
theorem foldl_addCenterOfGravity_length_bound (cogs : List CenterOfGravity) :
    ∀ s : TrackerState, s.cogHistory.length ≤ maxHistorySize + batchCleanupSize →
    (cogs.foldl addCenterOfGravity s).cogHistory.length ≤
      maxHistorySize + batchCleanupSize := by
  induction cogs with
  | nil => exact fun s h => h
  | cons c cs ih => exact fun s h => ih _ (addCenterOfGravity_length_bound s c h)

/-- The first 48 well-spaced samples (timestamps 200, 400, …, 9600 ms,
every gap equal to 200 ms ≥ UPDATE_INTERVAL). -/
def wellSpacedBatch : List CenterOfGravity :=
  [{ x := 0.5, y := 0.5, timestamp := 200, confidence := 0.9 },
   { x := 0.5, y := 0.5, timestamp := 400, confidence := 0.9 },
   { x := 0.5, y := 0.5, timestamp := 600, confidence := 0.9 },
   { x := 0.5, y := 0.5, timestamp := 800, confidence := 0.9 },
   { x := 0.5, y := 0.5, timestamp := 1000, confidence := 0.9 },
   { x := 0.5, y := 0.5, timestamp := 1200, confidence := 0.9 },
   { x := 0.5, y := 0.5, timestamp := 1400, confidence := 0.9 },
   { x := 0.5, y := 0.5, timestamp := 1600, confidence := 0.9 },
   { x := 0.5, y := 0.5, timestamp := 1800, confidence := 0.9 },
   { x := 0.5, y := 0.5, timestamp := 2000, confidence := 0.9 },
   { x := 0.5, y := 0.5, timestamp := 2200, confidence := 0.9 },
   { x := 0.5, y := 0.5, timestamp := 2400, confidence := 0.9 },
   { x := 0.5, y := 0.5, timestamp := 2600, confidence := 0.9 },
   { x := 0.5, y := 0.5, timestamp := 2800, confidence := 0.9 },
   { x := 0.5, y := 0.5, timestamp := 3000, confidence := 0.9 },
   { x := 0.5, y := 0.5, timestamp := 3200, confidence := 0.9 },
   { x := 0.5, y := 0.5, timestamp := 3400, confidence := 0.9 },
   { x := 0.5, y := 0.5, timestamp := 3600, confidence := 0.9 },
   { x := 0.5, y := 0.5, timestamp := 3800, confidence := 0.9 },
   { x := 0.5, y := 0.5, timestamp := 4000, confidence := 0.9 },
   { x := 0.5, y := 0.5, timestamp := 4200, confidence := 0.9 },
   { x := 0.5, y := 0.5, timestamp := 4400, confidence := 0.9 },
   { x := 0.5, y := 0.5, timestamp := 4600, confidence := 0.9 },
   { x := 0.5, y := 0.5, timestamp := 4800, confidence := 0.9 },
   { x := 0.5, y := 0.5, timestamp := 5000, confidence := 0.9 },
   { x := 0.5, y := 0.5, timestamp := 5200, confidence := 0.9 },
   { x := 0.5, y := 0.5, timestamp := 5400, confidence := 0.9 },
   { x := 0.5, y := 0.5, timestamp := 5600, confidence := 0.9 },
   { x := 0.5, y := 0.5, timestamp := 5800, confidence := 0.9 },
   { x := 0.5, y := 0.5, timestamp := 6000, confidence := 0.9 },
   { x := 0.5, y := 0.5, timestamp := 6200, confidence := 0.9 },
   { x := 0.5, y := 0.5, timestamp := 6400, confidence := 0.9 },
   { x := 0.5, y := 0.5, timestamp := 6600, confidence := 0.9 },
   { x := 0.5, y := 0.5, timestamp := 6800, confidence := 0.9 },
   { x := 0.5, y := 0.5, timestamp := 7000, confidence := 0.9 },
   { x := 0.5, y := 0.5, timestamp := 7200, confidence := 0.9 },
   { x := 0.5, y := 0.5, timestamp := 7400, confidence := 0.9 },
   { x := 0.5, y := 0.5, timestamp := 7600, confidence := 0.9 },
   { x := 0.5, y := 0.5, timestamp := 7800, confidence := 0.9 },
   { x := 0.5, y := 0.5, timestamp := 8000, confidence := 0.9 },
   { x := 0.5, y := 0.5, timestamp := 8200, confidence := 0.9 },
   { x := 0.5, y := 0.5, timestamp := 8400, confidence := 0.9 },
   { x := 0.5, y := 0.5, timestamp := 8600, confidence := 0.9 },
   { x := 0.5, y := 0.5, timestamp := 8800, confidence := 0.9 },
   { x := 0.5, y := 0.5, timestamp := 9000, confidence := 0.9 },
   { x := 0.5, y := 0.5, timestamp := 9200, confidence := 0.9 },
   { x := 0.5, y := 0.5, timestamp := 9400, confidence := 0.9 },
   { x := 0.5, y := 0.5, timestamp := 9600, confidence := 0.9 }]

/-- The 49th well-spaced sample, stamped 9800 ms. -/
def overflowSample : CenterOfGravity :=
  { x := 0.5, y := 0.5, timestamp := 9800, confidence := 0.9 }

/-- 49 well-spaced samples: the 48-sample prefix plus the overflow one. -/
def wellSpacedSamples : List CenterOfGravity := wellSpacedBatch ++ [overflowSample]

/-- Claim C7: the buffer length never exceeds
`MAX_HISTORY_SIZE + BATCH_CLEANUP_SIZE = 48` after any sequence of
inserts; an insert that would exceed that bound evicts the oldest
`BATCH_CLEANUP_SIZE = 8` samples in one splice; and after 49 well-spaced
inserts into a fresh tracker the buffer holds more than 40 but at most
48 samples (it holds exactly 41). -/
theorem trajectoryBuffer_eviction_spec :
    (∀ cogs : List CenterOfGravity,
      (cogs.foldl addCenterOfGravity initialTrackerState).cogHistory.length ≤
        maxHistorySize + batchCleanupSize) ∧
    (∀ (s : TrackerState) (cog : CenterOfGravity),
      ¬ cog.timestamp - s.lastUpdateTime < updateInterval →
      maxHistorySize + batchCleanupSize < s.cogHistory.length + 1 →
      (addCenterOfGravity s cog).cogHistory =
        (s.cogHistory ++ [cog]).drop batchCleanupSize) ∧
    (maxHistorySize <
      (wellSpacedSamples.foldl addCenterOfGravity initialTrackerState).cogHistory.length ∧
     (wellSpacedSamples.foldl addCenterOfGravity initialTrackerState).cogHistory.length ≤
       maxHistorySize + batchCleanupSize) := by
  refine ⟨?_, ?_, ?_⟩
  · intro cogs
    exact foldl_addCenterOfGravity_length_bound cogs initialTrackerState (by simp [initialTrackerState])
  · intro s cog hacc hover
    unfold addCenterOfGravity
    rw [if_neg hacc]
    simp only
    rw [if_pos (by simp only [List.length_append, List.length_cons, List.length_nil]; omega)]
  · have hlen :
        (wellSpacedSamples.foldl addCenterOfGravity initialTrackerState).cogHistory.length
          = 41 := by
      norm_num [wellSpacedSamples, wellSpacedBatch, overflowSample, addCenterOfGravity,
        initialTrackerState, updateInterval, maxHistorySize, batchCleanupSize]
    rw [hlen]
    norm_num [maxHistorySize, batchCleanupSize]

/-- A tracker already holding the 48 well-spaced samples. -/
def fullTrackerState : TrackerState :=
  { cogHistory := wellSpacedBatch, lastUpdateTime := 9600,
    cachedVisualizationData := none, lastVisualizationUpdate := 0 }

/-- Witness for C7: inserting the 49th well-spaced sample into the full
buffer performs the batch eviction of the 8 oldest samples. -/
theorem trajectoryBuffer_eviction_spec_witness :
    (addCenterOfGravity fullTrackerState overflowSample).cogHistory =
      (fullTrackerState.cogHistory ++ [overflowSample]).drop batchCleanupSize :=
  trajectoryBuffer_eviction_spec.2.1 fullTrackerState overflowSample
    (by norm_num [fullTrackerState, overflowSample, updateInterval])
    (by norm_num [fullTrackerState, wellSpacedBatch, maxHistorySize, batchCleanupSize])

/-- Three samples (≥ 3) of confidence 0.5, so the `confidence > 0.6`
metrics filter leaves none of them. -/
def lowConfidenceHistory : List CenterOfGravity :=
  [{ x := 0.1, y := 0.1, timestamp := 100, confidence := 0.5 },
   { x := 0.2, y := 0.2, timestamp := 300, confidence := 0.5 },
   { x := 0.3, y := 0.3, timestamp := 500, confidence := 0.5 }]

/-- Claim C1 (code bug): on a history with at least 3 samples of which
fewer than 3 pass the confidence filter, `calculateAdvancedGaitMetrics`
recurses on its *unchanged* argument (gaitAnalysis.ts line 46), so no
amount of fuel yields a result — the function diverges instead of
computing the metrics over the unfiltered set. -/
theorem calculateAdvancedGaitMetrics_diverges_on_lowConfidence :
    3 ≤ lowConfidenceHistory.length ∧
    (metricsFilter lowConfidenceHistory).length < 3 ∧
    ∀ fuel : ℕ, calculateAdvancedGaitMetricsF fuel lowConfidenceHistory = none := by
  have hfilter : metricsFilter lowConfidenceHistory = [] := by
    norm_num [metricsFilter, lowConfidenceHistory, List.filter_cons]
  refine ⟨by norm_num [lowConfidenceHistory], by rw [hfilter]; norm_num, ?_⟩
  intro fuel
  induction fuel with
  | zero => rfl
  | succ n ih =>
    unfold calculateAdvancedGaitMetricsF
    rw [if_neg (by norm_num [lowConfidenceHistory])]
    simp only
    rw [if_pos (by rw [hfilter]; norm_num)]
    exact ih

/-- Three high-confidence samples whose coordinate mean is within
`1e-10` of the origin while their dispersion is nonzero. -/
def nearOriginHistory : List CenterOfGravity :=
  [{ x := 3 / 10 ^ 10, y := 0, timestamp := 100, confidence := 0.9 },
   { x := 0, y := 0, timestamp := 300, confidence := 0.9 },
   { x := 0, y := 0, timestamp := 500, confidence := 0.9 }]

/-- Claim C2 (amended): whenever the metrics engine returns a value and
the confidence-filtered set kept at least 3 points, the reported
coefficient of variation is `stdDev / sqrt(meanX² + meanY²)` rounded to
3 decimals when that denominator exceeds `1e-10`, and exactly 0
otherwise — the code returns 0 near the origin instead of dividing by a
floored denominator. -/
theorem coefficientOfVariation_spec (fuel : ℕ)
    (cogHistory : List CenterOfGravity) (m : AdvancedGaitMetrics)
    (hm : calculateAdvancedGaitMetricsF fuel cogHistory = some m)
    (h3 : 3 ≤ (metricsFilter cogHistory).length) :
    m.coefficientOfVariation =
      jsRound3 (if 1e-10 < metricsOverallMean (metricsFilter cogHistory)
        then metricsStandardDeviation (metricsFilter cogHistory) /
          metricsOverallMean (metricsFilter cogHistory)
        else 0) := by
  have hle : (metricsFilter cogHistory).length ≤ cogHistory.length :=
    List.length_filter_le _ _
  cases fuel with
  | zero => exact Option.noConfusion hm
  | succ n =>
    unfold calculateAdvancedGaitMetricsF at hm
    rw [if_neg (by omega)] at hm
    simp only at hm
    rw [if_neg (by omega)] at hm
    injection hm with hm
    subst hm
    rfl

/-- Witness for C2 (amended) at a concrete 3-point filtered history. -/
theorem coefficientOfVariation_spec_witness :
    (advancedMetricsBody (metricsFilter nearOriginHistory)).coefficientOfVariation =
      jsRound3 (if 1e-10 < metricsOverallMean (metricsFilter nearOriginHistory)
        then metricsStandardDeviation (metricsFilter nearOriginHistory) /
          metricsOverallMean (metricsFilter nearOriginHistory)
        else 0) :=
  coefficientOfVariation_spec 1 nearOriginHistory _
    (by
      unfold calculateAdvancedGaitMetricsF
      rw [if_neg (by norm_num [nearOriginHistory])]
      simp only
      rw [if_neg (by norm_num [metricsFilter, nearOriginHistory, List.filter_cons])])
    (by norm_num [metricsFilter, nearOriginHistory, List.filter_cons])

/-- Counterexample to claim C2 as stated: on `nearOriginHistory` the
returned coefficient of variation is 0, while division by the floored
denominator `max(sqrt(meanX² + meanY²), 1e-10)` would give the nonzero
value `sqrt 2`. -/
theorem coefficientOfVariation_floored_claim_false :
    (calculateAdvancedGaitMetricsF 1 nearOriginHistory).map
        (fun m => m.coefficientOfVariation) = some 0 ∧
    metricsStandardDeviation (metricsFilter nearOriginHistory) /
      max (metricsOverallMean (metricsFilter nearOriginHistory)) 1e-10 ≠ 0 := by
  have hfilter : metricsFilter nearOriginHistory = nearOriginHistory := by
    norm_num [metricsFilter, nearOriginHistory, List.filter_cons]
  have hxmean : cogXMean nearOriginHistory = 1 / 10 ^ 10 := by
    norm_num [cogXMean, nearOriginHistory]
  have hymean : cogYMean nearOriginHistory = 0 := by
    norm_num [cogYMean, nearOriginHistory]
  have hcast : ((cogXMean nearOriginHistory * cogXMean nearOriginHistory +
      cogYMean nearOriginHistory * cogYMean nearOriginHistory : ℚ) : ℝ) =
      ((1 : ℝ) / 10 ^ 10) ^ 2 := by
    rw [hxmean, hymean]
    push_cast
    ring
  have hom : metricsOverallMean nearOriginHistory = 1 / 10 ^ 10 := by
    rw [metricsOverallMean, hcast, Real.sqrt_sq (by positivity)]
  have homle : ¬ (1e-10 : ℝ) < metricsOverallMean nearOriginHistory := by
    rw [hom]
    norm_num
  have hvar : cogVarianceSum nearOriginHistory = 6 / 10 ^ 20 := by
    norm_num [cogVarianceSum, cogXMean, cogYMean, nearOriginHistory]
  have hsdpos : 0 < metricsStandardDeviation nearOriginHistory := by
    rw [metricsStandardDeviation]
    apply Real.sqrt_pos.mpr
    rw [show nearOriginHistory.length = 3 from rfl, hvar]
    norm_num
  have hjr : jsRound3 0 = 0 := by
    rw [jsRound3]
    norm_num
  constructor
  · have heval : calculateAdvancedGaitMetricsF 1 nearOriginHistory =
        some (advancedMetricsBody nearOriginHistory) := by
      unfold calculateAdvancedGaitMetricsF
      rw [if_neg (by norm_num [nearOriginHistory])]
      simp only
      rw [hfilter, if_neg (by norm_num [nearOriginHistory])]
    rw [heval, Option.map_some']
    have : (advancedMetricsBody nearOriginHistory).coefficientOfVariation = 0 := by
      show jsRound3 (if 1e-10 < metricsOverallMean nearOriginHistory
        then metricsStandardDeviation nearOriginHistory /
          metricsOverallMean nearOriginHistory else 0) = 0
      rw [if_neg homle, hjr]
    rw [this]
  · rw [hfilter]
    have hden : 0 < max (metricsOverallMean nearOriginHistory) (1e-10 : ℝ) :=
      lt_of_lt_of_le (by norm_num) (le_max_right _ _)
    exact ne_of_gt (div_pos hsdpos hden)

/-- Helper: above the 2-sample floor, `analyzeGaitPattern` filters
outliers, scores the filtered set and labels it by the 70/60
thresholds. -/
theorem analyzeGaitPattern_of_two_le (cogHistory : List CenterOfGravity)
    (h2 : ¬ cogHistory.length < 2) :
    analyzeGaitPattern cogHistory =
      { cogHistory := filterOutliers cogHistory
        stability := calculateStability (filterOutliers cogHistory)
        pattern :=
          if 70 ≤ calculateStability (filterOutliers cogHistory) then .stable
          else if calculateStability (filterOutliers cogHistory) ≤ 60 then .unstable
          else .unknown } := by
  simp only [analyzeGaitPattern, if_neg h2]

/-- Claim C8: `analyzeCurrentGait` returns `null` iff the buffer holds
fewer than `MIN_ANALYSIS_POINTS = 6` samples; otherwise it
outlier-filters the full buffer and labels the result `stable` when the
filtered set's stability score is ≥ 70, `unstable` when it is ≤ 60, and
`unknown` strictly in between. -/
theorem analyzeCurrentGait_spec (s : TrackerState) :
    (analyzeCurrentGait s = none ↔ s.cogHistory.length < minAnalysisPoints) ∧
    ∀ r, analyzeCurrentGait s = some r →
      r.cogHistory = filterOutliers s.cogHistory ∧
      r.stability = calculateStability (filterOutliers s.cogHistory) ∧
      (70 ≤ calculateStability (filterOutliers s.cogHistory) →
        r.pattern = .stable) ∧
      (calculateStability (filterOutliers s.cogHistory) ≤ 60 →
        r.pattern = .unstable) ∧
      (60 < calculateStability (filterOutliers s.cogHistory) →
        calculateStability (filterOutliers s.cogHistory) < 70 →
        r.pattern = .unknown) := by
  by_cases hlen : s.cogHistory.length < minAnalysisPoints
  · constructor
    · simp [analyzeCurrentGait, hlen]
    · intro r hr
      simp [analyzeCurrentGait, hlen] at hr
  · have h2 : ¬ s.cogHistory.length < 2 := by
      simp only [minAnalysisPoints] at hlen
      omega
    constructor
    · simp [analyzeCurrentGait, hlen]
    · intro r hr
      simp only [analyzeCurrentGait, if_neg hlen, Option.some.injEq] at hr
      rw [analyzeGaitPattern_of_two_le s.cogHistory h2] at hr
      subst hr
      refine ⟨rfl, rfl, fun h70 => ?_, fun h60 => ?_, fun hgt hlt => ?_⟩
      · show (if 70 ≤ calculateStability (filterOutliers s.cogHistory)
            then GaitPattern.stable
            else if calculateStability (filterOutliers s.cogHistory) ≤ 60
              then GaitPattern.unstable else GaitPattern.unknown) = GaitPattern.stable
        rw [if_pos h70]
      · show (if 70 ≤ calculateStability (filterOutliers s.cogHistory)
            then GaitPattern.stable
            else if calculateStability (filterOutliers s.cogHistory) ≤ 60
              then GaitPattern.unstable else GaitPattern.unknown) = GaitPattern.unstable
        rw [if_neg (by linarith), if_pos h60]
      · show (if 70 ≤ calculateStability (filterOutliers s.cogHistory)
            then GaitPattern.stable
            else if calculateStability (filterOutliers s.cogHistory) ≤ 60
              then GaitPattern.unstable else GaitPattern.unknown) = GaitPattern.unknown
        rw [if_neg (by linarith), if_neg (by linarith)]

/-- A perfectly steady sample (used six times over). -/
def steadySample : CenterOfGravity :=
  { x := 0.5, y := 0.5, timestamp := 1000, confidence := 0.9 }

/-- Six identical high-confidence samples: zero dispersion, stability
100. -/
def steadyHistory : List CenterOfGravity :=
  [steadySample, steadySample, steadySample, steadySample, steadySample, steadySample]

/-- A tracker holding the six steady samples. -/
def steadyTrackerState : TrackerState :=
  { cogHistory := steadyHistory, lastUpdateTime := 1000,
    cachedVisualizationData := none, lastVisualizationUpdate := 0 }

/-- Witness for C8: six identical samples are outlier-free with
stability 100, so the analysis labels them `stable`. -/
theorem analyzeCurrentGait_spec_witness :
    (analyzeGaitPattern steadyTrackerState.cogHistory).pattern = GaitPattern.stable := by
  have hfo : filterOutliers steadyHistory = steadyHistory := by
    have hq1 : quartileIndex 6 (1 / 4) = 1 := by
      norm_num [quartileIndex, Int.toNat_ofNat]
    have hq3 : quartileIndex 6 (3 / 4) = 4 := by
      have hfl : (⌊(6 : ℚ) * (3 / 4)⌋ : ℤ) = 4 := by norm_num
      show (⌊(6 : ℚ) * (3 / 4)⌋).toNat = 4
      rw [hfl]
      rfl
    norm_num [filterOutliers, steadyHistory, steadySample,
      List.insertionSort, List.orderedInsert, List.filter_cons, hq1, hq3]
  have hstab : calculateStability steadyHistory = 100 := by
    norm_num [calculateStability, steadyHistory, steadySample, List.filter_cons]
  have happ := (analyzeCurrentGait_spec steadyTrackerState).2
    (analyzeGaitPattern steadyTrackerState.cogHistory)
    (by
      simp only [analyzeCurrentGait]
      rw [if_neg (by norm_num [steadyTrackerState, steadyHistory, minAnalysisPoints])])
  refine happ.2.2.1 ?_
  show 70 ≤ calculateStability (filterOutliers steadyHistory)
  rw [hfo, hstab]
  norm_num
